import Mathlib

/-!
Verification of the plexinstaller archive-ingestion, addon-normalization,
installation-transaction and rollback logic against its specification.

The definitions below are shallow embeddings of the Python source:
`utils.py` (ArchiveExtractor), `addon_manager.py` (AddonManager),
`installer.py` (PlexInstaller, InstallationContext).
-/

namespace PlexInstallerModel

/- ### Path model (utils.py `_extract_zip`/`_extract_tar`/`_extract_rar`,
addon_manager.py `_extract_archive_to`)

An absolute POSIX path is modelled as its list of components (no leading
slash stored); `renderAbs` produces the `str(Path(...))` form. -/

/-- Components of an absolute, already-normalized POSIX path. -/
abbrev AbsPath := List String

/-- A path as named inside an archive entry: possibly absolute, and its
components may contain `..` or `.`. -/
structure EntryPath where
  isAbsolute : Bool
  parts : List String
deriving DecidableEq, Repr

/-- pathlib `base / member`: an absolute right operand replaces the base. -/
def joinUnder (base : AbsPath) (e : EntryPath) : List String :=
  if e.isAbsolute then e.parts else base ++ e.parts

/-- `Path.resolve()` on a symlink-free tree: `..` pops one component
(staying at the root), `.` and empty components vanish. -/
def normalizeParts (parts : List String) : AbsPath :=
  parts.foldl
    (fun acc c =>
      if c == ".." then acc.dropLast
      else if c == "." || c == "" then acc
      else acc ++ [c])
    []

/-- `(target_dir / member).resolve()`. -/
def resolveUnder (base : AbsPath) (e : EntryPath) : AbsPath :=
  normalizeParts (joinUnder base e)

/-- `str(path)` for an absolute path. -/
def renderAbs (p : AbsPath) : String :=
  "/" ++ String.intercalate "/" p

/-- Python `str.startswith`: the candidate string begins with the given
text, compared character by character. -/
def pyStartsWith (s pre : String) : Bool :=
  pre.data.isPrefixOf s.data

/-- The traversal guard used for every zip/tar member in
`ArchiveExtractor._extract_zip` (utils.py:649-657), `_extract_tar`
(utils.py:659-667) and `AddonManager._extract_archive_to`
(addon_manager.py:126-133):
`str((target_dir / member).resolve()).startswith(str(target_dir.resolve()))`.
The member is accepted (no error raised) when this returns `true`. -/
def traversalCheckPasses (target : AbsPath) (member : EntryPath) : Bool :=
  pyStartsWith (renderAbs (resolveUnder target member)) (renderAbs target)

/-- The actual containment property the spec asks for: the resolved entry
path is the target root or one of its descendants. -/
def isWithin (target : AbsPath) (p : AbsPath) : Bool :=
  target.isPrefixOf p

/- ### Error model (`ArchiveExtractor.extract`, utils.py:593-626)

All three archive-layer failure conditions are raised as Python
`ValueError`s distinguished only by their message text. -/

/-- Python exception classes raised by `ArchiveExtractor.extract`. -/
inductive PyExcType
  | valueError
  | fileNotFoundError
  | permissionError
deriving DecidableEq, Repr

/-- A raised Python exception: its class and its message. -/
structure PyExc where
  etype : PyExcType
  msg : String
deriving DecidableEq, Repr

/-- utils.py:622 — `raise ValueError(f"Corrupted or invalid ZIP archive: {archive_path.name}")`. -/
def corruptZipExc (name : String) : PyExc :=
  ⟨PyExcType.valueError, "Corrupted or invalid ZIP archive: " ++ name⟩

/-- utils.py:624 — `raise ValueError(f"Corrupted or invalid TAR archive: {name} ({e})")`. -/
def corruptTarExc (name detail : String) : PyExc :=
  ⟨PyExcType.valueError, "Corrupted or invalid TAR archive: " ++ name ++ " (" ++ detail ++ ")"⟩

/-- utils.py:620 — `raise ValueError(f"Unsupported archive format: {archive_path.suffix}")`. -/
def unsupportedFormatExc (ext : String) : PyExc :=
  ⟨PyExcType.valueError, "Unsupported archive format: " ++ ext⟩

/-- utils.py:656 — `raise ValueError(f"Path traversal attempt detected: {member}")`. -/
def pathTraversalExc (member : String) : PyExc :=
  ⟨PyExcType.valueError, "Path traversal attempt detected: " ++ member⟩

/- ### Addon installation model (`AddonManager`, addon_manager.py:66-213)

The shared `addons/` directory is modelled by its list of top-level
entries; a directory entry additionally carries the names of its
children (one level of nesting is all the normalizer ever touches). -/

/-- One top-level entry of the addons directory. -/
inductive Entry
  | file (name : String)
  | dir (name : String) (children : List String)
deriving DecidableEq, Repr

/-- The entry's file-system name. -/
def Entry.name : Entry → String
  | .file n => n
  | .dir n _ => n

/-- What `_extract_archive_to` did to the addons directory: either it
returned normally having created the given new top-level entries, or it
raised midway leaving the given partially extracted entries behind. -/
inductive ExtractOutcome
  | ok (newItems : List Entry)
  | raised (leftoverItems : List Entry)
deriving DecidableEq, Repr

/-- Failure modes of `install_addon` (returned as `(False, message, None)`). -/
inductive InstallError
  | noFilesExtracted
  | nameCollision (name : String)
  | targetExistsAsFile (name : String)
  | extractionFailed
deriving DecidableEq, Repr

instance {ε α : Type} [DecidableEq ε] [DecidableEq α] :
    DecidableEq (Except ε α) := fun a b =>
  match a, b with
  | .error e, .error f =>
      if h : e = f then isTrue (by rw [h]) else isFalse (by simp [h])
  | .error _, .ok _ => isFalse (by simp)
  | .ok _, .error _ => isFalse (by simp)
  | .ok x, .ok y =>
      if h : x = y then isTrue (by rw [h]) else isFalse (by simp [h])

/-- Result of one `install_addon` call: the returned outcome together with
the final top-level contents of the addons directory. -/
structure InstallResult where
  outcome : Except InstallError String
  finalState : List Entry
deriving DecidableEq, Repr

/-- Python `str.lower` (over the character list). -/
def pyToLower (s : String) : String :=
  ⟨s.data.map Char.toLower⟩

/-- Python `str.endswith`: the string ends with the given text. -/
def pyEndsWith (s tail : String) : Bool :=
  tail.data.isSuffixOf s.data

/-- Python slicing `name[:-n]`: drop the last `n` characters. -/
def pyDropRight (s : String) (n : Nat) : String :=
  ⟨s.data.take (s.data.length - n)⟩

/-- addon_manager.py:169-173 — `archive_path.stem` with the suffixes
`-main`, `-master`, `-addon`, `-v1`, `-v2` stripped in that order
(each tested on the lowercased current name, stripped case-preserving). -/
def stripSuffixes (stem : String) : String :=
  ["-main", "-master", "-addon", "-v1", "-v2"].foldl
    (fun n suf => if pyEndsWith (pyToLower n) suf then pyDropRight n suf.length else n)
    stem

/-- Case 1 of `_handle_extracted_items` (addon_manager.py:157-165): the
delta is exactly one item and that item is a directory. -/
def singleDirName? : List Entry → Option String
  | [Entry.dir n _] => some n
  | _ => none

/-- `_handle_extracted_items` (addon_manager.py:143-200). Given the delta
`newItems`, the directory contents `after` extraction, and the archive
stem, produce the addon name and resulting directory contents, or raise
`FileExistsError` (the collision check at lines 178-181, or `mkdir` on a
path occupied by a file at line 184). -/
def handleExtractedItems (newItems : List Entry) (after : List Entry)
    (stem : String) : Except InstallError (String × List Entry) :=
  match singleDirName? newItems with
  | some n => .ok (n, after)
  | none =>
    let derived := stripSuffixes stem
    let newNames := newItems.map Entry.name
    if (after.any (fun e => e.name == derived)) && !(newNames.contains derived) then
      .error (.nameCollision derived)
    else
      match newItems.find? (fun e => e.name == derived) with
      | some (Entry.file _) => .error (.targetExistsAsFile derived)
      | found =>
        let baseChildren := match found with
          | some (Entry.dir _ c0) => c0
          | _ => []
        let movedNames := (newItems.filter (fun e => !(e.name == derived))).map Entry.name
        let kept := after.filter (fun e => !(newNames.contains e.name))
        .ok (derived,
          kept ++ [Entry.dir derived
            ((baseChildren.filter (fun c => !(movedNames.contains c))) ++ movedNames)])

/-- `_cleanup_new_items` (addon_manager.py:202-213): delete every current
top-level entry that was not present in the before-extraction snapshot. -/
def cleanupNewItems (before current : List Entry) : List Entry :=
  current.filter (fun e => (before.map Entry.name).contains e.name)

/-- `install_addon` (addon_manager.py:66-119). `extraction` stands for what
the call to `_extract_archive_to` did. A `FileExistsError` from
normalization is caught by the dedicated handler at line 114-115, which
returns the error *without* running `_cleanup_new_items`; any other
exception is caught at line 116-119, which cleans up the delta first. -/
def installAddon (stem : String) (extraction : ExtractOutcome)
    (before : List Entry) : InstallResult :=
  match extraction with
  | .raised leftoverItems =>
      { outcome := .error .extractionFailed,
        finalState := cleanupNewItems before (before ++ leftoverItems) }
  | .ok newItems =>
      let after := before ++ newItems
      if newItems.isEmpty then
        { outcome := .error .noFilesExtracted, finalState := after }
      else
        match handleExtractedItems newItems after stem with
        | .error e => { outcome := .error e, finalState := after }
        | .ok (name, st) => { outcome := .ok name, finalState := st }

/- ### Self-test report model (`PlexInstaller._SelfTestResult`,
installer.py:874-878, `_print_self_test_summary` installer.py:1591-1615,
and the `self_tests` step of `_install_product` installer.py:645-655) -/

/-- The tri-state status of one self-test entry. Every construction site
in `_run_post_install_self_tests` uses one of the literals
`"pass" | "warn" | "fail"`. -/
inductive TestStatus
  | pass
  | warn
  | fail
deriving DecidableEq, Repr

/-- One entry of the self-test report (installer.py:874-878). -/
structure SelfTestResult where
  name : String
  status : TestStatus
  detail : String := ""
  hint : String := ""
deriving DecidableEq, Repr

/-- The final console verdict printed by `_print_self_test_summary`. -/
inductive SummaryVerdict
  | allPass
  | warningsOnly
  | unhealthy
deriving DecidableEq, Repr

/-- Number of `fail` entries counted by the loop at installer.py:1596-1608. -/
def selfTestFailures (results : List SelfTestResult) : Nat :=
  (results.filter (fun r => r.status == TestStatus.fail)).length

/-- Number of `warn` entries counted by the same loop. -/
def selfTestWarnings (results : List SelfTestResult) : Nat :=
  (results.filter (fun r => r.status == TestStatus.warn)).length

/-- `_print_self_test_summary` (installer.py:1610-1615): error summary when
any failure was counted, warning summary when only warnings, success
otherwise. -/
def printSelfTestSummary (results : List SelfTestResult) : SummaryVerdict :=
  if selfTestFailures results ≠ 0 then .unhealthy
  else if selfTestWarnings results ≠ 0 then .warningsOnly
  else .allPass

/-- The status string logged for the `self_tests` step by
`_install_product` (installer.py:648-655): `failed`/`warned` are the
filtered sub-lists; `"failure"` if any entry failed, else `"warning"` if
any warned, else `"success"`. -/
def selfTestsStepStatus (results : List SelfTestResult) : String :=
  if (results.filter (fun r => r.status == TestStatus.fail)) ≠ [] then "failure"
  else if (results.filter (fun r => r.status == TestStatus.warn)) ≠ [] then "warning"
  else "success"

/- ### InstallationContext flag discipline (`InstallationContext`
installer.py:43-60, `_install_product` installer.py:560-685, `_setup_web`
installer.py:1618-1685)

The mutating steps of one successful installation attempt are modelled as
an event trace: `perform e` is the external side effect happening,
`record f` is the assignment that sets the context flag. Steps that touch
no context flag (npm install, 502 page, MongoDB, dashboard) are omitted:
they neither perform a flagged effect nor record a flag. -/

/-- External side effects tracked by InstallationContext flags. -/
inductive SideEffect
  | extractionDone
  | firewallPortOpened
  | nginxSetupDone
  | sslSetupDone
  | systemdServiceCreated
deriving DecidableEq, Repr

/-- The mutation flags of `InstallationContext` (installer.py:54-58). -/
inductive CtxFlag
  | installPathReady
  | openedPort
  | nginxConfigured
  | sslConfigured
  | serviceCreated
deriving DecidableEq, Fintype, Repr

/-- Which side effect each flag claims to record. -/
def CtxFlag.effect : CtxFlag → SideEffect
  | .installPathReady => .extractionDone
  | .openedPort => .firewallPortOpened
  | .nginxConfigured => .nginxSetupDone
  | .sslConfigured => .sslSetupDone
  | .serviceCreated => .systemdServiceCreated

/-- One event of the installation trace. -/
inductive InstallEv
  | perform (e : SideEffect)
  | record (f : CtxFlag)
deriving DecidableEq, Repr

/-- `_setup_web` (installer.py:1664-1685): `context.opened_port = port`
at line 1664 precedes `firewall.open_port` at line 1669;
`nginx.setup` (1678) precedes `context.nginx_configured = True` (1679);
`ssl.setup` (1682) precedes `context.ssl_configured = True` (1683). -/
def setupWebEvents : List InstallEv :=
  [ .record .openedPort,
    .perform .firewallPortOpened,
    .perform .nginxSetupDone,
    .record .nginxConfigured,
    .perform .sslSetupDone,
    .record .sslConfigured ]

/-- The flag-relevant events of a successful `_install_product` run
(installer.py:593-643): extraction (596) then
`context.install_path_ready = True` (600); `_setup_web` when the product
needs web setup (626-631); `_setup_systemd` performing
`systemd.create_service` and returning `True` only when the user opted in
(1705-1715), whose result is then assigned to `context.service_created`
(642). When the user declines, no service is created and the assignment
writes `False` (not a false-to-true transition), so no record event. -/
def installEvents (needsWeb serviceChosen : Bool) : List InstallEv :=
  [ .perform .extractionDone, .record .installPathReady ]
  ++ (if needsWeb then setupWebEvents else [])
  ++ (if serviceChosen then
        [.perform .systemdServiceCreated, .record .serviceCreated]
      else [])

/-- How many times the trace records the given flag. -/
def recordCount (t : List InstallEv) (f : CtxFlag) : Nat :=
  (t.filter (fun ev => ev == InstallEv.record f)).length

/-- Every `record f` event in the trace is immediately preceded by the
`perform` of the flag's side effect (`prev` is the previous event). -/
def recordsImmediatelyAfterEffect (f : CtxFlag) :
    Option InstallEv → List InstallEv → Bool
  | _, [] => true
  | prev, ev :: rest =>
      ((ev != InstallEv.record f) || (prev == some (InstallEv.perform f.effect)))
      && recordsImmediatelyAfterEffect f (some ev) rest

/-- The discipline the spec claims for every flag: recorded at most once,
and only immediately after its side effect was performed. -/
def flagDiscipline (t : List InstallEv) (f : CtxFlag) : Bool :=
  decide (recordCount t f ≤ 1) && recordsImmediatelyAfterEffect f none t

/- ### Rollback model (`_cleanup_failed_install`, installer.py:1738-1762) -/

/-- The artifact-removal actions `_cleanup_failed_install` can perform. -/
inductive CleanupAction
  | removeService
  | removeNginx
  | removeSsl
  | removeInstallDir
  | closePort
deriving DecidableEq, Repr

/-- The slice of `InstallationContext` that `_cleanup_failed_install`
reads, plus whether the installation directory actually exists (the code
tests `context.install_path.exists()`, not a flag). -/
structure CleanupCtx where
  serviceCreated : Bool
  nginxConfigured : Bool
  sslConfigured : Bool
  installPathReadyFlag : Bool
  domain : Option String
  installPathExists : Bool
  openedPort : Option Nat
deriving DecidableEq, Repr

/-- Python truthiness of an optional string (`None` and `""` are falsy). -/
def optionStringTruthy : Option String → Bool
  | none => false
  | some s => !(s == "")

/-- Python truthiness of an optional int (`None` and `0` are falsy). -/
def optionNatTruthy : Option Nat → Bool
  | none => false
  | some n => !(n == 0)

/-- `_cleanup_failed_install` (installer.py:1738-1762), as the ordered list
of removal actions it performs: service removal when `service_created`
(1743-1744); nginx removal when `nginx_configured and domain` (1748-1749);
certificate removal when `ssl_configured and domain` (1751-1752); the
install directory tree whenever `install_path` is truthy and the directory
exists (1754-1756) — the `install_path_ready` flag is not consulted;
firewall close when `opened_port` is truthy (1761-1762). -/
def cleanupFailedInstall (ctx : CleanupCtx) : List CleanupAction :=
  (if ctx.serviceCreated then [.removeService] else [])
  ++ (if ctx.nginxConfigured && optionStringTruthy ctx.domain then [.removeNginx] else [])
  ++ (if ctx.sslConfigured && optionStringTruthy ctx.domain then [.removeSsl] else [])
  ++ (if ctx.installPathExists then [.removeInstallDir] else [])
  ++ (if optionNatTruthy ctx.openedPort then [.closePort] else [])

/-- Modelled from the spec's words (§4.5 / testable property "Rollback
completeness"): remove exactly the artifacts implied by the true flags —
service unit for `serviceCreated`, web configuration for
`nginxConfigured`, TLS certificate for `sslConfigured`, the installation
directory tree for `installPathReady`, and the opened firewall port. -/
def rollbackSpecActions (ctx : CleanupCtx) : List CleanupAction :=
  (if ctx.serviceCreated then [.removeService] else [])
  ++ (if ctx.nginxConfigured then [.removeNginx] else [])
  ++ (if ctx.sslConfigured then [.removeSsl] else [])
  ++ (if ctx.installPathReadyFlag then [.removeInstallDir] else [])
  ++ (if optionNatTruthy ctx.openedPort then [.closePort] else [])

/- ### Rar extraction sites (`ArchiveExtractor._extract_rar`
utils.py:669-686, `AddonManager._extract_archive_to` rar branch
addon_manager.py:134-139) -/

/-- The phases a rar extraction code path runs. -/
inductive RarPhase
  | checkUnrarAvailable
  | runUnrar
  | postExtractionSweep
deriving DecidableEq, Repr

/-- The two places in the repository that extract a rar archive. -/
inductive RarSite
  | archiveExtractor
  | addonManager
deriving DecidableEq, Repr

/-- The phases each site performs, read off the source:
`ArchiveExtractor._extract_rar` checks for `unrar`, runs it, then sweeps
`target_path.rglob('*')` (utils.py:672-686); the rar branch of
`AddonManager._extract_archive_to` checks for `unrar` and runs it with no
sweep afterwards (addon_manager.py:134-139). -/
def rarExtractionPhases : RarSite → List RarPhase
  | .archiveExtractor => [.checkUnrarAvailable, .runUnrar, .postExtractionSweep]
  | .addonManager => [.checkUnrarAvailable, .runUnrar]

/-- An item met by the post-extraction sweep: its resolved absolute path
(`item.resolve()`, which follows symlinks) and whether it is a file. -/
structure SweptItem where
  resolvedPath : AbsPath
  isFile : Bool
deriving DecidableEq, Repr

/-- The per-item violation test of the sweep (utils.py:681-682):
`not str(item.resolve()).startswith(str(target_path.resolve()))`. -/
def sweepViolation (target : AbsPath) (it : SweptItem) : Bool :=
  !(pyStartsWith (renderAbs it.resolvedPath) (renderAbs target))

/-- The sweep loop (utils.py:681-686): the first offending item, if any —
on finding it the code deletes it when it is a file and raises
`ValueError("Path traversal attempt detected in RAR archive: ...")`. -/
def rarSweepFirstViolation (target : AbsPath) (items : List SweptItem) :
    Option SweptItem :=
  items.find? (sweepViolation target)

/- ### Addon removal model (`remove_addon` addon_manager.py:264-292,
`backup_addon` addon_manager.py:231-262) -/

/-- `backup_addon` returns success iff the addon folder exists (line
240-241) and the tar archive creation raises nothing (252-262). -/
def backupAddonSucceeds (addonExists tarCreateOk : Bool) : Bool :=
  addonExists && tarCreateOk

/-- Observable outcome of `remove_addon`: the returned success flag and
whether the addon folder was deleted. -/
structure RemoveOutcome where
  success : Bool
  addonRemoved : Bool
deriving DecidableEq, Repr

/-- `remove_addon` (addon_manager.py:264-292): not-found check first
(278-279); when `backup_first` is set, a failed `backup_addon` returns
failure before anything is deleted (282-285); only then `shutil.rmtree`
runs, itself guarded by try/except (288-292). -/
def removeAddon (addonExists backupFirst tarCreateOk rmtreeOk : Bool) :
    RemoveOutcome :=
  if !addonExists then ⟨false, false⟩
  else if backupFirst && !(backupAddonSucceeds addonExists tarCreateOk) then
    ⟨false, false⟩
  else if rmtreeOk then ⟨true, true⟩
  else ⟨false, false⟩

end PlexInstallerModel

namespace PlexInstallerModel

/-- Helper: two `valueError` exceptions whose messages start with different
fixed texts are distinct, whatever the message payloads are. -/
theorem pyexc_ne_of_take_ne (p q a b : String) (n : Nat)
    (hp : n ≤ p.data.length) (hq : n ≤ q.data.length)
    (hne : p.data.take n ≠ q.data.take n) :
    (⟨PyExcType.valueError, p ++ a⟩ : PyExc) ≠ ⟨PyExcType.valueError, q ++ b⟩ := by
  intro h
  have hm : (p ++ a).data = (q ++ b).data := congrArg (fun e => e.msg.data) h
  rw [String.data_append, String.data_append] at hm
  have ht : (p.data ++ a.data).take n = (q.data ++ b.data).take n := by rw [hm]
  rw [List.take_append_of_le_length hp, List.take_append_of_le_length hq] at ht
  exact hne ht

/-- Sanity: the guard does reject an absolute entry path that escapes. -/
theorem traversalCheck_rejects_absolute_escape :
    traversalCheckPasses ["srv", "addons"] ⟨true, ["etc", "passwd"]⟩ = false := by
  decide

/-- Sanity: the guard does reject a plain `..` escape to an unrelated name. -/
theorem traversalCheck_rejects_dotdot_escape :
    traversalCheckPasses ["srv", "addons"] ⟨false, ["..", "..", "etc", "passwd"]⟩ = false := by
  decide

/-- Helper: no entry of `l` is named `a` iff `l.any (·.name == a)` is false. -/
theorem any_name_eq_false_of_not_mem {l : List Entry} {a : String}
    (h : a ∉ l.map Entry.name) : l.any (fun e => e.name == a) = false := by
  rw [Bool.eq_false_iff]
  intro hc
  rw [List.any_eq_true] at hc
  obtain ⟨e, he, hbeq⟩ := hc
  exact h (List.mem_map.mpr ⟨e, he, by simpa using hbeq⟩)

/-- Helper: a list of names not containing `a`, as a `contains` equation. -/
theorem contains_eq_false_of_not_mem {l : List String} {a : String}
    (h : a ∉ l) : l.contains a = false := by
  simp [List.contains, h]

/-- Helper: collision branch of `installAddon`, fully evaluated: when the
delta is not a single directory, the derived name is present after
extraction but not among the delta's own names, `install_addon` returns
the `FileExistsError` and performs no cleanup. -/
theorem installAddon_collision_eq (stem : String) (before newItems : List Entry)
    (hsingle : singleDirName? newItems = none)
    (hne : newItems.isEmpty = false)
    (hany : (before ++ newItems).any (fun e => e.name == stripSuffixes stem) = true)
    (hcontains : (newItems.map Entry.name).contains (stripSuffixes stem) = false) :
    installAddon stem (.ok newItems) before
      = { outcome := .error (.nameCollision (stripSuffixes stem)),
          finalState := before ++ newItems } := by
  have hcoll : handleExtractedItems newItems (before ++ newItems) stem
      = .error (.nameCollision (stripSuffixes stem)) := by
    simp only [handleExtractedItems, hsingle]
    rw [hany, hcontains]
    rfl
  simp [installAddon, hne, hcoll]

/-- Helper: `mkdir` branch of `installAddon`, fully evaluated: when the
delta is not a single directory and the entry carrying the derived name is
a newly extracted *file*, `target_folder.mkdir(exist_ok=True)`
(addon_manager.py:184) raises `FileExistsError` — caught by the handler at
addon_manager.py:114-115, which returns the error without cleanup. -/
theorem installAddon_targetFile_eq (stem : String) (before newItems : List Entry)
    (f : String)
    (hsingle : singleDirName? newItems = none)
    (hne : newItems.isEmpty = false)
    (hfind : newItems.find? (fun e => e.name == stripSuffixes stem)
        = some (Entry.file f)) :
    installAddon stem (.ok newItems) before
      = { outcome := .error (.targetExistsAsFile (stripSuffixes stem)),
          finalState := before ++ newItems } := by
  have hf : f = stripSuffixes stem := by
    have hpf := List.find?_some hfind
    simpa [Entry.name] using hpf
  have hmem : Entry.file f ∈ newItems := List.mem_of_find?_eq_some hfind
  have hmemn : stripSuffixes stem ∈ newItems.map Entry.name := by
    rw [← hf]
    exact List.mem_map.mpr ⟨Entry.file f, hmem, rfl⟩
  have hcontains : (newItems.map Entry.name).contains (stripSuffixes stem)
      = true := by
    simpa [List.contains] using hmemn
  have hmk : handleExtractedItems newItems (before ++ newItems) stem
      = .error (.targetExistsAsFile (stripSuffixes stem)) := by
    unfold handleExtractedItems
    rw [hsingle]
    dsimp only
    rw [hcontains]
    simp only [Bool.not_true, Bool.and_false, Bool.false_eq_true, if_false]
    rw [hfind]
  simp [installAddon, hne, hmk]

/-- C1: the spec demands that every zip/tar entry whose resolved path
escapes the target root make extraction fail with a path-traversal error
before any bytes are written. The guard actually implemented compares
rendered paths with `str.startswith` and misses sibling directories whose
name has the target root as a string prefix: the entry
`../addons2/evil.txt` under root `/srv/addons` resolves to
`/srv/addons2/evil.txt`, which escapes the root, yet the check passes, so
extraction proceeds with no `PathTraversalError`. -/
theorem c1_traversal_check_misses_sibling_escape :
    traversalCheckPasses ["srv", "addons"] ⟨false, ["..", "addons2", "evil.txt"]⟩ = true
    ∧ resolveUnder ["srv", "addons"] ⟨false, ["..", "addons2", "evil.txt"]⟩
        = ["srv", "addons2", "evil.txt"]
    ∧ isWithin ["srv", "addons"]
        (resolveUnder ["srv", "addons"] ⟨false, ["..", "addons2", "evil.txt"]⟩) = false := by
  decide

/-- C8 counterexample: corrupt-archive, unsupported-format and
path-traversal failures are all raised as the same Python exception class
(`ValueError`), so they are not distinct error kinds a caller could catch
apart. -/
theorem c8_counterexample_same_exception_class :
    (corruptZipExc "addon.zip").etype = (unsupportedFormatExc ".7z").etype
    ∧ (corruptZipExc "addon.zip").etype = (pathTraversalExc "../../etc/passwd").etype
    ∧ (corruptTarExc "a.tar.gz" "truncated header").etype
        = (unsupportedFormatExc ".7z").etype := by
  exact ⟨rfl, rfl, rfl⟩

/-- C8 amended: all three failure conditions raise `ValueError`; callers
can distinguish them only by the message text, which does differ for any
archive name, extension or member (distinct fixed message openings). -/
theorem c8_amended_same_type_distinct_messages (a b c d e : String) :
    (corruptZipExc a).etype = PyExcType.valueError
    ∧ (corruptTarExc d e).etype = PyExcType.valueError
    ∧ (unsupportedFormatExc b).etype = PyExcType.valueError
    ∧ (pathTraversalExc c).etype = PyExcType.valueError
    ∧ corruptZipExc a ≠ unsupportedFormatExc b
    ∧ corruptZipExc a ≠ pathTraversalExc c
    ∧ unsupportedFormatExc b ≠ pathTraversalExc c := by
  refine ⟨rfl, rfl, rfl, rfl, ?_, ?_, ?_⟩ <;>
    · simp only [corruptZipExc, unsupportedFormatExc, pathTraversalExc]
      exact pyexc_ne_of_take_ne _ _ _ _ 1 (by decide) (by decide) (by decide)

/-- C8 witness: the amended distinctness at concrete inputs. -/
theorem c8_amended_witness :
    corruptZipExc "addon.zip" ≠ unsupportedFormatExc ".7z" :=
  (c8_amended_same_type_distinct_messages "addon.zip" ".7z" "m" "a.tar" "eof").2.2.2.2.1

/-- C5 counterexample: a context in which no mutation flag is set but the
installation directory happens to exist. `_cleanup_failed_install` deletes
the directory tree anyway — an artifact implied by the (false)
`install_path_ready` flag is touched — so rollback is not determined by
the flag subset alone. -/
theorem c5_counterexample_removes_dir_without_flag :
    cleanupFailedInstall ⟨false, false, false, false, none, true, none⟩
        ≠ rollbackSpecActions ⟨false, false, false, false, none, true, none⟩
    ∧ CleanupAction.removeInstallDir
        ∈ cleanupFailedInstall ⟨false, false, false, false, none, true, none⟩
    ∧ (⟨false, false, false, false, none, true, none⟩ : CleanupCtx).installPathReadyFlag
        = false := by
  decide

/-- C5 amended: the rollback actions are exactly characterized by:
service removal iff `service_created`; nginx removal iff
`nginx_configured` and a truthy domain; certificate removal iff
`ssl_configured` and a truthy domain; install-directory removal iff the
directory exists (the `install_path_ready` flag is not consulted);
firewall close iff a truthy `opened_port` was recorded. -/
theorem c5_amended_rollback_membership (ctx : CleanupCtx) :
    (CleanupAction.removeService ∈ cleanupFailedInstall ctx
        ↔ ctx.serviceCreated = true)
    ∧ (CleanupAction.removeNginx ∈ cleanupFailedInstall ctx
        ↔ ctx.nginxConfigured = true ∧ optionStringTruthy ctx.domain = true)
    ∧ (CleanupAction.removeSsl ∈ cleanupFailedInstall ctx
        ↔ ctx.sslConfigured = true ∧ optionStringTruthy ctx.domain = true)
    ∧ (CleanupAction.removeInstallDir ∈ cleanupFailedInstall ctx
        ↔ ctx.installPathExists = true)
    ∧ (CleanupAction.closePort ∈ cleanupFailedInstall ctx
        ↔ optionNatTruthy ctx.openedPort = true) := by
  obtain ⟨s, n, sl, ipr, dom, ipe, op⟩ := ctx
  cases s <;> cases n <;> cases sl <;> cases ipe <;>
    cases hd : optionStringTruthy dom <;> cases hp : optionNatTruthy op <;>
      simp [cleanupFailedInstall, hd, hp]

/-- C5 witness: the amended characterization applied to a fully-set
context. -/
theorem c5_amended_witness :
    CleanupAction.removeInstallDir
      ∈ cleanupFailedInstall
          ⟨true, true, true, true, some "app.example.com", true, some 3000⟩ :=
  ((c5_amended_rollback_membership
      ⟨true, true, true, true, some "app.example.com", true, some 3000⟩).2.2.2.1).mpr rfl

/-- C9 counterexample: the claim says the post-extraction sweep is
performed for every rar extraction path, but the rar branch of
`AddonManager._extract_archive_to` runs `unrar` with no sweep at all. -/
theorem c9_counterexample_addon_manager_has_no_sweep :
    RarPhase.postExtractionSweep ∉ rarExtractionPhases RarSite.addonManager := by
  decide

/-- C9 amended: `ArchiveExtractor._extract_rar` does run the sweep after
`unrar`, and the sweep flags a violation exactly when some swept item's
resolved path fails the target-prefix test (deleting the offender and
raising); the `AddonManager` rar path performs no sweep. -/
theorem c9_amended_sweep_only_in_extractor (target : AbsPath)
    (items : List SweptItem) :
    RarPhase.postExtractionSweep ∈ rarExtractionPhases RarSite.archiveExtractor
    ∧ RarPhase.postExtractionSweep ∉ rarExtractionPhases RarSite.addonManager
    ∧ ((rarSweepFirstViolation target items).isSome
        ↔ ∃ it ∈ items, sweepViolation target it = true) := by
  refine ⟨by decide, by decide, ?_⟩
  simp [rarSweepFirstViolation, List.find?_isSome]

/-- C9 witness: the amended statement applied to a symlinked item escaping
the target, which the sweep flags. -/
theorem c9_amended_witness :
    (rarSweepFirstViolation ["srv", "app"] [⟨["etc", "passwd"], true⟩]).isSome :=
  ((c9_amended_sweep_only_in_extractor ["srv", "app"]
      [⟨["etc", "passwd"], true⟩]).2.2).mpr
    ⟨⟨["etc", "passwd"], true⟩, List.mem_singleton.mpr rfl, by decide⟩

/-- C10: with `backup_first` set, a backup failure makes `remove_addon`
return failure with the addon folder untouched, and the folder is only
ever deleted when the backup succeeded. -/
theorem c10_backup_gates_removal : ∀ tarCreateOk rmtreeOk : Bool,
    (tarCreateOk = false →
      removeAddon true true tarCreateOk rmtreeOk = ⟨false, false⟩)
    ∧ ((removeAddon true true tarCreateOk rmtreeOk).addonRemoved = true →
      backupAddonSucceeds true tarCreateOk = true) := by
  decide

/-- C10 witness: the theorem applied at a failing backup. -/
theorem c10_backup_gates_removal_witness :
    removeAddon true true false true = ⟨false, false⟩ :=
  (c10_backup_gates_removal false true).1 rfl

/-- C4 counterexample: in the web-setup path of a successful installation
run, `context.opened_port` is recorded *before* the firewall port is
opened (installer.py:1664 precedes 1669), violating the
record-only-after-the-effect discipline; the flag is still recorded only
once. -/
theorem c4_counterexample_opened_port_recorded_early :
    flagDiscipline (installEvents true true) CtxFlag.openedPort = false
    ∧ recordsImmediatelyAfterEffect CtxFlag.openedPort none (installEvents true true)
        = false
    ∧ recordCount (installEvents true true) CtxFlag.openedPort = 1 := by
  decide

/-- C4 amended: in every installation trace (with or without web setup,
with or without service registration), `install_path_ready`,
`nginx_configured`, `ssl_configured` and `service_created` are each
recorded at most once and only immediately after their side effect is
performed; `opened_port` is also recorded at most once, but before its
side effect rather than after. -/
theorem c4_amended_flag_discipline : ∀ (needsWeb serviceChosen : Bool) (f : CtxFlag),
    f ≠ CtxFlag.openedPort →
    flagDiscipline (installEvents needsWeb serviceChosen) f = true
    ∧ recordCount (installEvents needsWeb serviceChosen) CtxFlag.openedPort ≤ 1 := by
  decide

/-- C4 witness: the amended discipline for `nginx_configured` on the full
trace. -/
theorem c4_amended_witness :
    flagDiscipline (installEvents true true) CtxFlag.nginxConfigured = true :=
  (c4_amended_flag_discipline true true CtxFlag.nginxConfigured (by decide)).1

/-- C2 counterexample: `install_addon` on an archive whose delta is two
loose files while a folder of the derived name pre-exists hits the
name-collision `FileExistsError`, which is caught by the dedicated handler
(addon_manager.py:114-115) that returns *without* running
`_cleanup_new_items` — the two extracted files stay in the shared addons
directory, so it is not left as it was before the call. -/
theorem c2_counterexample_collision_leaves_delta :
    (installAddon "TicketStats"
        (.ok [Entry.file "index.js", Entry.file "util.js"])
        [Entry.dir "TicketStats" ["old.js"]]).outcome
      = .error (.nameCollision "TicketStats")
    ∧ (installAddon "TicketStats"
        (.ok [Entry.file "index.js", Entry.file "util.js"])
        [Entry.dir "TicketStats" ["old.js"]]).finalState
      ≠ [Entry.dir "TicketStats" ["old.js"]] := by
  decide

/-- C2 amended: when extraction itself raises, the generic handler removes
the whole delta and the addons directory is restored to its
before-the-call state; but both `FileExistsError` failure paths — the
name-collision check (addon_manager.py:178-181), and the `mkdir` on a
derived-name path occupied by a newly extracted file
(addon_manager.py:184) — return the error with the newly created entries
still in place. -/
theorem c2_amended_cleanup_except_file_exists (stem : String)
    (before leftoverItems newItems : List Entry) :
    ((∀ e ∈ leftoverItems, e.name ∉ before.map Entry.name) →
      (installAddon stem (.raised leftoverItems) before).finalState = before
      ∧ (installAddon stem (.raised leftoverItems) before).outcome
          = .error .extractionFailed)
    ∧ (singleDirName? newItems = none → newItems.isEmpty = false →
        ((before ++ newItems).any fun e => e.name == stripSuffixes stem) = true →
        (newItems.map Entry.name).contains (stripSuffixes stem) = false →
        (installAddon stem (.ok newItems) before).outcome
            = .error (.nameCollision (stripSuffixes stem))
        ∧ (installAddon stem (.ok newItems) before).finalState
            = before ++ newItems)
    ∧ (singleDirName? newItems = none → newItems.isEmpty = false →
        ∀ f : String,
        newItems.find? (fun e => e.name == stripSuffixes stem)
            = some (Entry.file f) →
        (installAddon stem (.ok newItems) before).outcome
            = .error (.targetExistsAsFile (stripSuffixes stem))
        ∧ (installAddon stem (.ok newItems) before).finalState
            = before ++ newItems) := by
  refine ⟨?_, ?_, ?_⟩
  · intro hfresh
    have hclean : cleanupNewItems before (before ++ leftoverItems) = before := by
      unfold cleanupNewItems
      rw [List.filter_append]
      have h1 : before.filter
          (fun e => (before.map Entry.name).contains e.name) = before := by
        rw [List.filter_eq_self]
        intro e he
        simp [List.contains, List.mem_map]
        exact ⟨e, he, rfl⟩
      have h2 : leftoverItems.filter
          (fun e => (before.map Entry.name).contains e.name) = [] := by
        rw [List.filter_eq_nil_iff]
        intro e he
        simpa [List.contains] using hfresh e he
      rw [h1, h2, List.append_nil]
    exact ⟨by simp [installAddon, hclean], by simp [installAddon]⟩
  · intro hsingle hne hany hcontains
    rw [installAddon_collision_eq stem before newItems hsingle hne hany hcontains]
    exact ⟨rfl, rfl⟩
  · intro hsingle hne f hfind
    rw [installAddon_targetFile_eq stem before newItems f hsingle hne hfind]
    exact ⟨rfl, rfl⟩

/-- C2 witness: the amended cleanup guarantee at a concrete failed
extraction. -/
theorem c2_amended_witness :
    (installAddon "Widget" (.raised [Entry.file "half.js"])
        [Entry.dir "Other" []]).finalState
      = [Entry.dir "Other" []] :=
  ((c2_amended_cleanup_except_file_exists "Widget" [Entry.dir "Other" []]
      [Entry.file "half.js"] []).1 (by decide)).1

/-- Helper: no entry of the report failed iff the failure count is zero. -/
theorem selfTestFailures_eq_zero_iff (rs : List SelfTestResult) :
    selfTestFailures rs = 0 ↔ ∀ r ∈ rs, r.status ≠ TestStatus.fail := by
  simp [selfTestFailures, List.length_eq_zero, List.filter_eq_nil_iff]

/-- C3: a report with at least one `fail` entry is summarized as unhealthy
and makes `_install_product` log the `self_tests` step as `"failure"`,
even though it is reached only after every mutating step returned
success; a report with no `fail` entry (only `pass`/`warn`) is never
summarized as unhealthy nor logged as a step failure. -/
theorem c3_fail_entries_force_unhealthy (results : List SelfTestResult) :
    ((∃ r ∈ results, r.status = TestStatus.fail) →
      printSelfTestSummary results = SummaryVerdict.unhealthy
      ∧ selfTestsStepStatus results = "failure")
    ∧ ((∀ r ∈ results, r.status ≠ TestStatus.fail) →
      printSelfTestSummary results ≠ SummaryVerdict.unhealthy
      ∧ selfTestsStepStatus results ≠ "failure") := by
  constructor
  · rintro ⟨r, hr, hst⟩
    have hf : selfTestFailures results ≠ 0 := by
      rw [Ne, selfTestFailures_eq_zero_iff]
      push_neg
      exact ⟨r, hr, hst⟩
    have hfil : results.filter (fun r => r.status == TestStatus.fail) ≠ [] := by
      intro h0
      exact hf (by simp [selfTestFailures, h0])
    exact ⟨by simp [printSelfTestSummary, hf],
           by simp [selfTestsStepStatus, hfil]⟩
  · intro h
    have hf : selfTestFailures results = 0 :=
      (selfTestFailures_eq_zero_iff results).mpr h
    have hfil : results.filter (fun r => r.status == TestStatus.fail) = [] := by
      have h0 := hf
      rwa [selfTestFailures, List.length_eq_zero] at h0
    refine ⟨?_, ?_⟩
    · simp only [printSelfTestSummary, hf, ne_eq, not_true_eq_false, if_false]
      split <;> simp
    · simp only [selfTestsStepStatus, hfil, ne_eq, not_true_eq_false, if_false]
      split <;> decide

/-- C3 witness: a singleton failing report is summarized unhealthy and the
step is logged as a failure. -/
theorem c3_witness :
    printSelfTestSummary
        [⟨"Node.js version", TestStatus.fail, "v16", "upgrade Node"⟩]
      = SummaryVerdict.unhealthy
    ∧ selfTestsStepStatus
        [⟨"Node.js version", TestStatus.fail, "v16", "upgrade Node"⟩]
      = "failure" :=
  (c3_fail_entries_force_unhealthy _).1
    ⟨⟨"Node.js version", TestStatus.fail, "v16", "upgrade Node"⟩,
      List.mem_singleton.mpr rfl, rfl⟩

/-- C6: when the name derived from the archive stem collides with a folder
that existed before extraction (hence with a name outside the delta),
`install_addon` fails with the name-collision error and the pre-existing
folder — with its original children — is still present, unmodified by the
normalizer, in the resulting directory. -/
theorem c6_collision_preserves_existing_folder (stem : String)
    (before newItems : List Entry) (children : List String)
    (hsingle : singleDirName? newItems = none)
    (hne : newItems.isEmpty = false)
    (hpre : Entry.dir (stripSuffixes stem) children ∈ before)
    (hnot : stripSuffixes stem ∉ newItems.map Entry.name) :
    (installAddon stem (.ok newItems) before).outcome
      = .error (.nameCollision (stripSuffixes stem))
    ∧ Entry.dir (stripSuffixes stem) children
        ∈ (installAddon stem (.ok newItems) before).finalState := by
  have hany : ((before ++ newItems).any fun e => e.name == stripSuffixes stem)
      = true := by
    rw [List.any_eq_true]
    exact ⟨Entry.dir (stripSuffixes stem) children,
      List.mem_append_left _ hpre, by simp [Entry.name]⟩
  have hcontains := contains_eq_false_of_not_mem hnot
  rw [installAddon_collision_eq stem before newItems hsingle hne hany hcontains]
  exact ⟨rfl, List.mem_append_left _ hpre⟩

/-- C6 witness: the collision error and untouched pre-existing folder at a
concrete input (derived name `Stats` from stem `Stats-main`). -/
theorem c6_witness :
    (installAddon "Stats-main"
        (.ok [Entry.file "x.js", Entry.file "y.js"])
        [Entry.dir "Stats" ["a.js"]]).outcome
      = .error (.nameCollision (stripSuffixes "Stats-main"))
    ∧ Entry.dir (stripSuffixes "Stats-main") ["a.js"]
        ∈ (installAddon "Stats-main"
            (.ok [Entry.file "x.js", Entry.file "y.js"])
            [Entry.dir "Stats" ["a.js"]]).finalState :=
  c6_collision_preserves_existing_folder "Stats-main"
    [Entry.dir "Stats" ["a.js"]] [Entry.file "x.js", Entry.file "y.js"]
    ["a.js"] (by decide) (by decide) (by decide) (by decide)

/-- C7 counterexample: a delta of exactly one file whose name is exactly
the derived name (archive `Widget.zip` shipping the single loose file
`Widget`) is *not* wrapped into a derived-name folder: the collision check
passes (the occupant is part of the delta), then
`target_folder.mkdir(exist_ok=True)` on the path occupied by that file
raises `FileExistsError` and installation fails, the file left loose. -/
theorem c7_counterexample_file_named_like_derived :
    (installAddon "Widget" (.ok [Entry.file "Widget"]) []).outcome
      = .error (.targetExistsAsFile "Widget")
    ∧ ∀ children,
        Entry.dir "Widget" children
          ∉ (installAddon "Widget" (.ok [Entry.file "Widget"]) []).finalState := by
  constructor
  · decide
  · intro children
    show Entry.dir "Widget" children ∉ [Entry.file "Widget"]
    simp

/-- C7 amended: a delta consisting of exactly one *file* is never treated
as correctly packaged. When the file's name differs from the derived name
(and neither collides with a pre-existing entry) it is wrapped into a
freshly created folder named by the archive stem with known suffixes
stripped; when the file is named exactly the derived name, the `mkdir`
raises `FileExistsError` and installation fails with the file left loose.
A delta of exactly one *directory* is kept as the canonical folder under
its own name with the directory contents untouched. -/
theorem c7_amended_single_file_asymmetry (stem fileName : String)
    (before : List Entry) :
    ((stripSuffixes stem ∉ before.map Entry.name →
      stripSuffixes stem ≠ fileName →
      fileName ∉ before.map Entry.name →
      (installAddon stem (.ok [Entry.file fileName]) before).outcome
          = .ok (stripSuffixes stem)
      ∧ (installAddon stem (.ok [Entry.file fileName]) before).finalState
          = before ++ [Entry.dir (stripSuffixes stem) [fileName]]))
    ∧ (stripSuffixes stem = fileName →
      (installAddon stem (.ok [Entry.file fileName]) before).outcome
          = .error (.targetExistsAsFile (stripSuffixes stem))
      ∧ (installAddon stem (.ok [Entry.file fileName]) before).finalState
          = before ++ [Entry.file fileName])
    ∧ ∀ (dirName : String) (children : List String),
        (installAddon stem (.ok [Entry.dir dirName children]) before).outcome
            = .ok dirName
        ∧ (installAddon stem (.ok [Entry.dir dirName children]) before).finalState
            = before ++ [Entry.dir dirName children] := by
  refine ⟨?_, ?_, ?_⟩
  · intro hnc hnf hfb
    have h2 : (fileName == stripSuffixes stem) = false := by
      simpa using Ne.symm hnf
    have hq : handleExtractedItems [Entry.file fileName]
        (before ++ [Entry.file fileName]) stem
        = .ok (stripSuffixes stem,
            before ++ [Entry.dir (stripSuffixes stem) [fileName]]) := by
      have hany0 : ((before ++ [Entry.file fileName]).any
          fun e => e.name == stripSuffixes stem) = false := by
        rw [List.any_append, any_name_eq_false_of_not_mem hnc]
        simp [Entry.name, h2]
      have hkept : (before ++ [Entry.file fileName]).filter
          (fun e => !((List.map Entry.name [Entry.file fileName]).contains e.name))
          = before := by
        rw [List.filter_append]
        have hb : before.filter
            (fun e => !((List.map Entry.name [Entry.file fileName]).contains e.name))
            = before := by
          rw [List.filter_eq_self]
          intro e he
          have hneq : e.name ≠ fileName := fun hEq =>
            hfb (hEq ▸ List.mem_map.mpr ⟨e, he, rfl⟩)
          have hne2 : (e.name == fileName) = false := by
            simpa using hneq
          show (!(([fileName] : List String).contains e.name)) = true
          simp [List.contains, List.elem, hne2]
        have hf1 : ([Entry.file fileName] : List Entry).filter
            (fun e => !((List.map Entry.name [Entry.file fileName]).contains e.name))
            = [] := by
          simp [List.filter, List.contains, List.elem, Entry.name]
        rw [hb, hf1, List.append_nil]
      have hsing : singleDirName? [Entry.file fileName] = none := rfl
      have hfind : List.find? (fun e => e.name == stripSuffixes stem)
          [Entry.file fileName] = none := by
        simp [List.find?, Entry.name, h2]
      unfold handleExtractedItems
      rw [hsing]
      dsimp only
      rw [hany0]
      simp only [Bool.false_and, Bool.false_eq_true, if_false]
      rw [hfind, hkept]
      simp [Entry.name, h2]
    refine ⟨?_, ?_⟩ <;> simp [installAddon, hq]
  · intro heq
    have hfind : ([Entry.file fileName] : List Entry).find?
        (fun e => e.name == stripSuffixes stem) = some (Entry.file fileName) := by
      simp [List.find?, Entry.name, heq]
    rw [installAddon_targetFile_eq stem before [Entry.file fileName] fileName
      rfl rfl hfind]
    exact ⟨rfl, rfl⟩
  · intro dirName children
    have hq2 : handleExtractedItems [Entry.dir dirName children]
        (before ++ [Entry.dir dirName children]) stem
        = .ok (dirName, before ++ [Entry.dir dirName children]) := rfl
    exact ⟨by simp [installAddon, hq2], by simp [installAddon, hq2]⟩

/-- C7 witness: a single loose file `bot.js` from `MyAddon-v2.zip` is
wrapped into the derived-name folder `MyAddon`. -/
theorem c7_amended_witness :
    (installAddon "MyAddon-v2" (.ok [Entry.file "bot.js"]) []).outcome
      = .ok (stripSuffixes "MyAddon-v2")
    ∧ (installAddon "MyAddon-v2" (.ok [Entry.file "bot.js"]) []).finalState
      = [] ++ [Entry.dir (stripSuffixes "MyAddon-v2") ["bot.js"]] :=
  (c7_amended_single_file_asymmetry "MyAddon-v2" "bot.js" []).1
    (by decide) (by decide) (by decide)

end PlexInstallerModel
